import Mathlib

/-
Verification of the decorrelation-augmented training engine (src/run.py).

The file shallowly embeds train_network and run from src/run.py. The external
collaborators that run.py imports from utils / modules (construct_dataloaders,
init_metric, update_metrics, train, DecorNet) are not part of the source tree;
they are modelled from the specification, and each such definition carries a
doc comment starting with "Modelled from the spec:". Floating-point loss values
are modelled by the type RVal, which keeps the IEEE classification relevant to
the numpy predicates used by run.py (finite / +inf / -inf / NaN).
-/

namespace CorrGD

/-- Classification of a floating-point scalar as far as run.py observes it:
a finite value (carried as a rational), one of the two infinities, or NaN. -/
inductive RVal where
  | fin (q : ℚ)
  | posInf
  | negInf
  | nan
deriving DecidableEq, Repr

/-- Model of numpy.isnan: true exactly on NaN (false on finite values and on
both infinities). -/
def RVal.isnan : RVal → Bool
  | .nan => true
  | _ => false

/-- Model of numpy.isfinite: true exactly on finite values. -/
def RVal.isFinite : RVal → Bool
  | .fin _ => true
  | _ => false

/-- The two data phases of a run (run.py passes "train" / "test"). -/
inductive Phase where
  | train
  | test
deriving DecidableEq, Repr

/-- Metric storage: per phase ("train" / "test"), the ordered per-epoch
sequences of loss and accuracy values (metrics[phase][metric] in run.py). -/
structure Metrics (α : Type) where
  trainLoss : List α
  trainAcc : List α
  testLoss : List α
  testAcc : List α
deriving DecidableEq, Repr

/-- Modelled from the spec: init_metric (imported from utils) creates empty
metric sequences for both phases (section 4.4: the tracker starts empty and
record appends). -/
def init_metric {α : Type} : Metrics α := ⟨[], [], [], []⟩

/-- Modelled from the spec: the appending performed by update_metrics
(section 4.4: record(phase, loss, accuracy) appends to the corresponding
sequences). -/
def Metrics.record {α : Type} (m : Metrics α) (p : Phase) (loss acc : α) : Metrics α :=
  match p with
  | .train => { m with trainLoss := m.trainLoss ++ [loss], trainAcc := m.trainAcc ++ [acc] }
  | .test => { m with testLoss := m.testLoss ++ [loss], testAcc := m.testAcc ++ [acc] }

/-- Fieldwise concatenation of metric storages (proof helper). -/
def Metrics.appendM {α : Type} (m m' : Metrics α) : Metrics α :=
  ⟨m.trainLoss ++ m'.trainLoss, m.trainAcc ++ m'.trainAcc,
   m.testLoss ++ m'.testLoss, m.testAcc ++ m'.testAcc⟩

/-- metrics[...][-1] lifted to the model: whether the most recently recorded
value of a sequence is NaN. -/
def lastIsNan (l : List RVal) : Bool :=
  (l.getLast?.map RVal.isnan).getD false

/-- The divergence condition of run.py lines 141-143:
np.isnan(metrics["test"]["loss"][-1]) or np.isnan(metrics["train"]["loss"][-1]). -/
def nanAbortChk (m : Metrics RVal) : Bool :=
  lastIsNan m.testLoss || lastIsNan m.trainLoss

end CorrGD

namespace CorrGD

/-- Dataset dispatch target of run.py lines 40-46: the three torchvision
dataset classes, or the unresolved configuration string itself. -/
inductive TvDataset where
  | mnist
  | cifar10
  | cifar100
  | str (s : String)
deriving DecidableEq, Repr

/-- run.py lines 40-46: tv_dataset = dataset, replaced by a torchvision class
for the three recognized names; any other string (including "TIN") passes
through unchanged. -/
def resolveDataset (dataset : String) : TvDataset :=
  if dataset = "MNIST" then .mnist
  else if dataset = "CIFAR10" then .cifar10
  else if dataset = "CIFAR100" then .cifar100
  else .str dataset

/-- run.py lines 60-70: in_size = 28*28 and out_size = 10 by default, then the
cascade of ifs for CIFAR10, CIFAR100 and the "TIN" string. -/
def networkSizes (tv : TvDataset) : ℤ × ℤ :=
  let in_size : ℤ := 28 * 28
  let out_size : ℤ := 10
  let p := if tv = .cifar10 then ((32 * 32 * 3 : ℤ), out_size) else (in_size, out_size)
  let p := if tv = .cifar100 then ((32 * 32 * 3 : ℤ), (100 : ℤ)) else p
  let p := if tv = .str "TIN" then ((64 * 64 * 3 : ℤ), (200 : ℤ)) else p
  p

/-- Configuration errors of the engine (spec section 7 taxonomy (a)). -/
inductive ConfigError where
  | unknownDataset (name : String)
  | invalidNetworkShape
deriving DecidableEq, Repr

/-- Modelled from the spec: construct_dataloaders (imported from utils) is the
data-loading collaborator; an unknown dataset is a configuration error
surfaced immediately (section 7). The recognized datasets are the three
torchvision classes resolved by run.py and the "TIN" string (section 6 table). -/
def construct_dataloaders (tv : TvDataset) : Except ConfigError Unit :=
  match tv with
  | .mnist => .ok ()
  | .cifar10 => .ok ()
  | .cifar100 => .ok ()
  | .str s => if s = "TIN" then .ok () else .error (.unknownDataset s)

/-- A trainable parameter of the network, tagged by layer index: a forward
weight matrix, a bias vector, or a decorrelation matrix (spec section 3). -/
inductive Param where
  | weight (layer : ℕ)
  | biasVec (layer : ℕ)
  | decorMat (layer : ℕ)
deriving DecidableEq, Repr

/-- The layered network configuration record (DecorNet from modules). -/
structure DecorNet where
  in_size : ℤ
  out_size : ℤ
  n_hidden_layers : ℤ
  hidden_size : ℤ
  decorrelation_method : Option String
  biases : Bool
deriving DecidableEq, Repr

/-- Modelled from the spec: DecorNet construction (modules, called at run.py
lines 73-82). Section 4.2: constructing with hidden_layer_count < 0 or
non-positive sizes is invalid and must fail with a configuration error. -/
def mkDecorNet (in_size out_size n_hidden_layers hidden_size : ℤ)
    (decorrelation_method : Option String) (biases : Bool) : Except ConfigError DecorNet :=
  if n_hidden_layers < 0 ∨ in_size ≤ 0 ∨ out_size ≤ 0 ∨ hidden_size ≤ 0 then
    .error .invalidNetworkShape
  else
    .ok ⟨in_size, out_size, n_hidden_layers, hidden_size, decorrelation_method, biases⟩

/-- Number of layers of the network: hidden_layer_count + 1 (spec section 4.2). -/
def DecorNet.layerCount (net : DecorNet) : ℕ := net.n_hidden_layers.toNat + 1

/-- Modelled from the spec: the forward parameter partition — weights and
biases of all layers (spec section 3). -/
def DecorNet.get_fwd_params (net : DecorNet) : List Param :=
  (List.range net.layerCount).map Param.weight ++
    (if net.biases then (List.range net.layerCount).map Param.biasVec else [])

/-- Modelled from the spec: the decorrelation parameter partition — the
decorrelation matrices of all layers; when decorrelation is disabled the
matrices are excluded from the partition, leaving it empty (spec section 4.1). -/
def DecorNet.get_decor_params (net : DecorNet) : List Param :=
  if net.decorrelation_method = none then []
  else (List.range net.layerCount).map Param.decorMat

/-- A torch optimizer as configured by run.py lines 88-103. -/
inductive Optimizer where
  | adam (params : List Param) (betas : ℚ × ℚ) (eps : ℚ) (lr : ℚ)
  | sgd (params : List Param) (lr : ℚ)
deriving DecidableEq, Repr

/-- run.py line 32: betas = [0.9, 0.999]. -/
def theBetas : ℚ × ℚ := (9 / 10, 999 / 1000)

/-- run.py line 33: eps = 1e-8. -/
def theEps : ℚ := 1 / 100000000

/-- run.py lines 89-98: fwd_optimizer = None; Adam for "Adam", SGD for "SGD",
otherwise it stays None. -/
def mkFwdOptimizer (optimizer_type : String) (fwd_params : List Param)
    (betas : ℚ × ℚ) (eps : ℚ) (fwd_lr : ℚ) : Option Optimizer :=
  if optimizer_type = "Adam" then some (.adam fwd_params betas eps fwd_lr)
  else if optimizer_type = "SGD" then some (.sgd fwd_params fwd_lr)
  else none

/-- run.py lines 100-103: optimizers = [fwd_optimizer]; a decorrelation SGD
optimizer over get_decor_params is appended only when decorrelation_method is
not None. -/
def mkOptimizers (fwd_optimizer : Option Optimizer) (decorrelation_method : Option String)
    (decor_params : List Param) (decor_lr : ℚ) : List (Option Optimizer) :=
  let optimizers := [fwd_optimizer]
  if decorrelation_method ≠ none then
    optimizers ++ [some (.sgd decor_params decor_lr)]
  else optimizers

/-- Batch-level loss function type: predictions, raw integer labels, one-hot
targets, giving the per-sample losses (the three-argument lambdas of run.py
lines 108 and 111). -/
abbrev LossFn := List (List ℝ) → List ℕ → List (List ℝ) → List ℝ

/-- Model of a single sample's torch.nn.CrossEntropyLoss(reduction="none"):
-log softmax(input)[target], i.e. log of the sum of exponentials of the
logits minus the target logit. -/
noncomputable def crossEntropy (input : List ℝ) (target : ℕ) : ℝ :=
  Real.log ((input.map Real.exp).sum) - input.getD target 0

/-- run.py line 108: the CCE strategy lambda — CrossEntropyLoss(reduction="none")
applied to (input, target); the onehot argument is not used. -/
noncomputable def cce_loss_func : LossFn :=
  fun input target _onehot => List.zipWith crossEntropy input target

/-- run.py lines 110-113: the MSE strategy lambda — MSELoss(reduction="none")
applied to (input, onehot), i.e. elementwise squared error, then summed over
axis 1 (the output classes) for each sample; the target argument is not used. -/
def mse_loss_func : LossFn :=
  fun input _target onehot =>
    (input.zip onehot).map (fun p => (List.zipWith (fun x y => (x - y) ^ 2) p.1 p.2).sum)

/-- run.py lines 105-113: loss_func = None; the CCE lambda for "CCE", the MSE
lambda for "MSE", otherwise it stays None. -/
noncomputable def mkLossFunc (loss_func_type : String) : Option LossFn :=
  if loss_func_type = "CCE" then some cce_loss_func
  else if loss_func_type = "MSE" then some mse_loss_func
  else none

/-- Spec section 4.5, stated in the spec's own words: the per-sample
sum-of-squared-error loss — squared error against the one-hot target, summed
(not averaged) across output classes. Used to compare the code's MSE strategy
against the specification. -/
def spec_sse_per_sample (pred onehot : List ℝ) : ℝ :=
  (List.zipWith (fun a b => (a - b) ^ 2) pred onehot).sum

end CorrGD

namespace CorrGD

/-- The external collaborators of train_network, parametrized over the opaque
numeric state σ of the real network weights.
initState: the numeric state created when the model is built (run.py line 73).
Modelled from the spec: evalPass is update_metrics' forward-only evaluation of
one phase, producing that phase's (mean loss, accuracy) and performing no
parameter update (section 4.5 step 1); trainEpoch is train(...), one full pass
over the training batches stepping the given optimizers (section 4.3). -/
structure TrainOracles (σ : Type) where
  initState : DecorNet → σ
  evalPass : Option LossFn → σ → Phase → RVal × RVal
  trainEpoch : List (Option Optimizer) → Option LossFn → σ → ℕ → σ

/-- run.py lines 139-140: the state change of one loop iteration — train one
epoch only while e < nb_epochs, otherwise leave the state unchanged. -/
def runState {σ : Type} (trainE : σ → ℕ → σ) (nb_epochs : ℕ) (s : σ) (e : ℕ) : σ :=
  if e < nb_epochs then trainE s e else s

/-- The training loop of run.py lines 116-145, iterating e over
range(nb_epochs + 1): evaluate both phases (appending to the metrics), train
one epoch while e < nb_epochs, then break when the newest recorded test or
train loss is NaN. Returns the metrics, the final numeric state, and whether
the NaN break fired. The first ℕ argument is the current epoch e, the second
the number of remaining iterations. -/
def trainLoopGo {σ : Type} (evalP : σ → Phase → RVal × RVal) (trainE : σ → ℕ → σ)
    (nb_epochs : ℕ) : ℕ → ℕ → σ → Metrics RVal → Metrics RVal × σ × Bool
  | _, 0, s, m => (m, s, false)
  | e, n + 1, s, m =>
    let tr := evalP s Phase.train
    let te := evalP s Phase.test
    let m1 := (m.record Phase.train tr.1 tr.2).record Phase.test te.1 te.2
    let s1 := runState trainE nb_epochs s e
    if nanAbortChk m1 then (m1, s1, true)
    else trainLoopGo evalP trainE nb_epochs (e + 1) n s1 m1

/-- The full loop: epochs 0 .. nb_epochs inclusive. -/
def trainLoop {σ : Type} (evalP : σ → Phase → RVal × RVal) (trainE : σ → ℕ → σ)
    (nb_epochs : ℕ) (s : σ) (m : Metrics RVal) : Metrics RVal × σ × Bool :=
  trainLoopGo evalP trainE nb_epochs 0 (nb_epochs + 1) s m

/-- The evaluation condition the loop checks at a given state (proof helper):
NaN in the newest test loss or in the newest train loss. -/
def nanChk {σ : Type} (evalP : σ → Phase → RVal × RVal) (s : σ) : Bool :=
  (evalP s Phase.test).1.isnan || (evalP s Phase.train).1.isnan

/-- Iterated state update: apply the per-epoch step to s for k consecutive
epochs starting at epoch a (proof helper). -/
def iterState {σ : Type} (stepF : σ → ℕ → σ) : ℕ → ℕ → σ → σ
  | _, 0, s => s
  | a, k + 1, s => iterState stepF (a + 1) k (stepF s a)

/-- The network state the loop holds when it reaches epoch e. -/
def loopStateAt {σ : Type} (trainE : σ → ℕ → σ) (nb_epochs : ℕ) (s0 : σ) (e : ℕ) : σ :=
  iterState (runState trainE nb_epochs) 0 e s0

/-- The metrics recorded and the state reached by n abort-free loop iterations
starting at epoch a (proof helper). -/
def cleanRun {σ : Type} (evalP : σ → Phase → RVal × RVal) (stepF : σ → ℕ → σ) :
    ℕ → ℕ → σ → Metrics RVal × σ
  | _, 0, s => (init_metric, s)
  | a, n + 1, s =>
    let tr := evalP s Phase.train
    let te := evalP s Phase.test
    let rest := cleanRun evalP stepF (a + 1) n (stepF s a)
    (⟨tr.1 :: rest.1.trainLoss, tr.2 :: rest.1.trainAcc,
      te.1 :: rest.1.testLoss, te.2 :: rest.1.testAcc⟩, rest.2)

end CorrGD

namespace CorrGD

theorem record_record (m : Metrics RVal) (l₁ a₁ l₂ a₂ : RVal) :
    (m.record Phase.train l₁ a₁).record Phase.test l₂ a₂ =
      ⟨m.trainLoss ++ [l₁], m.trainAcc ++ [a₁], m.testLoss ++ [l₂], m.testAcc ++ [a₂]⟩ := rfl

theorem lastIsNan_concat (l : List RVal) (x : RVal) : lastIsNan (l ++ [x]) = x.isnan := by
  simp [lastIsNan]

theorem nanAbortChk_record {σ : Type} (evalP : σ → Phase → RVal × RVal)
    (m : Metrics RVal) (s : σ) :
    nanAbortChk ((m.record Phase.train (evalP s Phase.train).1 (evalP s Phase.train).2).record
        Phase.test (evalP s Phase.test).1 (evalP s Phase.test).2) = nanChk evalP s := by
  simp [nanAbortChk, record_record, lastIsNan_concat, nanChk]

/-- The doubly-recorded metrics of one loop iteration at state s. -/
def recordBoth {σ : Type} (m : Metrics RVal) (evalP : σ → Phase → RVal × RVal) (s : σ) :
    Metrics RVal :=
  (m.record Phase.train (evalP s Phase.train).1 (evalP s Phase.train).2).record
    Phase.test (evalP s Phase.test).1 (evalP s Phase.test).2

theorem trainLoopGo_succ {σ : Type} (evalP : σ → Phase → RVal × RVal) (trainE : σ → ℕ → σ)
    (nb n e : ℕ) (s : σ) (m : Metrics RVal) :
    trainLoopGo evalP trainE nb e (n + 1) s m =
      (if nanChk evalP s then (recordBoth m evalP s, runState trainE nb s e, true)
       else trainLoopGo evalP trainE nb (e + 1) n (runState trainE nb s e)
              (recordBoth m evalP s)) := by
  rw [trainLoopGo, ← nanAbortChk_record evalP m s]
  rfl

theorem init_appendM {α : Type} (m : Metrics α) : (init_metric : Metrics α).appendM m = m := rfl

theorem recordBoth_appendM {σ : Type} (m r : Metrics RVal) (evalP : σ → Phase → RVal × RVal)
    (s : σ) :
    (recordBoth m evalP s).appendM r =
      m.appendM ⟨(evalP s Phase.train).1 :: r.trainLoss, (evalP s Phase.train).2 :: r.trainAcc,
        (evalP s Phase.test).1 :: r.testLoss, (evalP s Phase.test).2 :: r.testAcc⟩ := by
  simp [recordBoth, record_record, Metrics.appendM]

theorem trainLoopGo_clean {σ : Type} (evalP : σ → Phase → RVal × RVal)
    (trainE : σ → ℕ → σ) (nb : ℕ) :
    ∀ (n a : ℕ) (s : σ) (m : Metrics RVal),
      (∀ k, k < n → nanChk evalP (iterState (runState trainE nb) a k s) = false) →
      trainLoopGo evalP trainE nb a n s m =
        (m.appendM (cleanRun evalP (runState trainE nb) a n s).1,
         (cleanRun evalP (runState trainE nb) a n s).2, false) := by
  intro n
  induction n with
  | zero =>
      intro a s m _
      simp [trainLoopGo, cleanRun, Metrics.appendM, init_metric]
  | succ n ih =>
      intro a s m h
      have h0 : nanChk evalP s = false := by
        simpa [iterState] using h 0 (Nat.succ_pos n)
      rw [trainLoopGo_succ, h0]
      simp only [Bool.false_eq_true, if_false]
      rw [ih (a + 1) (runState trainE nb s a) (recordBoth m evalP s)
            (fun k hk => by simpa [iterState] using h (k + 1) (Nat.succ_lt_succ hk))]
      rw [show cleanRun evalP (runState trainE nb) a (n + 1) s =
            (⟨(evalP s Phase.train).1 ::
                (cleanRun evalP (runState trainE nb) (a + 1) n (runState trainE nb s a)).1.trainLoss,
              (evalP s Phase.train).2 ::
                (cleanRun evalP (runState trainE nb) (a + 1) n (runState trainE nb s a)).1.trainAcc,
              (evalP s Phase.test).1 ::
                (cleanRun evalP (runState trainE nb) (a + 1) n (runState trainE nb s a)).1.testLoss,
              (evalP s Phase.test).2 ::
                (cleanRun evalP (runState trainE nb) (a + 1) n (runState trainE nb s a)).1.testAcc⟩,
             (cleanRun evalP (runState trainE nb) (a + 1) n (runState trainE nb s a)).2)
          from rfl]
      rw [recordBoth_appendM]

theorem trainLoopGo_abort {σ : Type} (evalP : σ → Phase → RVal × RVal)
    (trainE : σ → ℕ → σ) (nb : ℕ) :
    ∀ (k n a : ℕ) (s : σ) (m : Metrics RVal), k < n →
      (∀ j, j < k → nanChk evalP (iterState (runState trainE nb) a j s) = false) →
      nanChk evalP (iterState (runState trainE nb) a k s) = true →
      trainLoopGo evalP trainE nb a n s m =
        (m.appendM (cleanRun evalP (runState trainE nb) a (k + 1) s).1,
         (cleanRun evalP (runState trainE nb) a (k + 1) s).2, true) := by
  intro k
  induction k with
  | zero =>
      intro n a s m hkn _ hnan
      obtain ⟨n', rfl⟩ : ∃ n', n = n' + 1 := ⟨n - 1, by omega⟩
      have h0 : nanChk evalP s = true := by simpa [iterState] using hnan
      rw [trainLoopGo_succ, h0]
      simp only [if_true]
      rw [show cleanRun evalP (runState trainE nb) a 1 s =
            (⟨[(evalP s Phase.train).1], [(evalP s Phase.train).2],
              [(evalP s Phase.test).1], [(evalP s Phase.test).2]⟩, runState trainE nb s a)
          from rfl]
      simp [recordBoth, record_record, Metrics.appendM]
  | succ k ih =>
      intro n a s m hkn hpre hnan
      obtain ⟨n', rfl⟩ : ∃ n', n = n' + 1 := ⟨n - 1, by omega⟩
      have h0 : nanChk evalP s = false := by
        simpa [iterState] using hpre 0 (Nat.succ_pos k)
      rw [trainLoopGo_succ, h0]
      simp only [Bool.false_eq_true, if_false]
      rw [ih n' (a + 1) (runState trainE nb s a) (recordBoth m evalP s) (by omega)
            (fun j hj => by simpa [iterState] using hpre (j + 1) (Nat.succ_lt_succ hj))
            (by simpa [iterState] using hnan)]
      rw [show cleanRun evalP (runState trainE nb) a (k + 1 + 1) s =
            (⟨(evalP s Phase.train).1 ::
                (cleanRun evalP (runState trainE nb) (a + 1) (k + 1) (runState trainE nb s a)).1.trainLoss,
              (evalP s Phase.train).2 ::
                (cleanRun evalP (runState trainE nb) (a + 1) (k + 1) (runState trainE nb s a)).1.trainAcc,
              (evalP s Phase.test).1 ::
                (cleanRun evalP (runState trainE nb) (a + 1) (k + 1) (runState trainE nb s a)).1.testLoss,
              (evalP s Phase.test).2 ::
                (cleanRun evalP (runState trainE nb) (a + 1) (k + 1) (runState trainE nb s a)).1.testAcc⟩,
             (cleanRun evalP (runState trainE nb) (a + 1) (k + 1) (runState trainE nb s a)).2)
          from rfl]
      rw [recordBoth_appendM]

theorem cleanRun_lengths {σ : Type} (evalP : σ → Phase → RVal × RVal) (stepF : σ → ℕ → σ) :
    ∀ (n a : ℕ) (s : σ),
      (cleanRun evalP stepF a n s).1.trainLoss.length = n ∧
      (cleanRun evalP stepF a n s).1.trainAcc.length = n ∧
      (cleanRun evalP stepF a n s).1.testLoss.length = n ∧
      (cleanRun evalP stepF a n s).1.testAcc.length = n := by
  intro n
  induction n with
  | zero => intro a s; simp [cleanRun, init_metric]
  | succ n ih =>
      intro a s
      have := ih (a + 1) (stepF s a)
      simp [cleanRun, this.1, this.2.1, this.2.2.1, this.2.2.2]

theorem cleanRun_snd {σ : Type} (evalP : σ → Phase → RVal × RVal) (stepF : σ → ℕ → σ) :
    ∀ (n a : ℕ) (s : σ), (cleanRun evalP stepF a n s).2 = iterState stepF a n s := by
  intro n
  induction n with
  | zero => intro a s; rfl
  | succ n ih => intro a s; simpa [cleanRun, iterState] using ih (a + 1) (stepF s a)

theorem iterState_succ_right {σ : Type} (stepF : σ → ℕ → σ) :
    ∀ (k a : ℕ) (s : σ), iterState stepF a (k + 1) s = stepF (iterState stepF a k s) (a + k) := by
  intro k
  induction k with
  | zero => intro a s; simp [iterState]
  | succ k ih =>
      intro a s
      rw [show iterState stepF a (k + 1 + 1) s = iterState stepF (a + 1) (k + 1) (stepF s a) from rfl,
          ih (a + 1) (stepF s a)]
      rw [show iterState stepF a (k + 1) s = iterState stepF (a + 1) k (stepF s a) from rfl]
      ring_nf

/-- The configuration surface of train_network (run.py lines 14-29), with the
defaults of the source. -/
structure TrainConfig where
  batch_size : ℤ := 256
  dataset : String := "MNIST"
  device : String := "cuda"
  bias : Bool := true
  decorrelation_method : Option String := some "copi"
  decor_lr : ℚ := 1 / 1000
  n_hidden_layers : ℤ := 3
  hidden_layer_size : ℤ := 1000
  loss_func_type : String := "CCE"
  optimizer_type : String := "Adam"
  fwd_lr : ℚ := 1 / 100
  seed : ℤ := 42
  nb_epochs : ℕ := 10
  loud : Bool := true

/-- The loss function train_network selects (run.py lines 105-113). -/
noncomputable def lossFuncOf (cfg : TrainConfig) : Option LossFn :=
  mkLossFunc cfg.loss_func_type

/-- The forward optimizer train_network builds (run.py lines 89-98). -/
def fwdOptimizerOf (cfg : TrainConfig) (model : DecorNet) : Option Optimizer :=
  mkFwdOptimizer cfg.optimizer_type model.get_fwd_params theBetas theEps cfg.fwd_lr

/-- The optimizer list train_network builds (run.py lines 100-103). -/
def optimizersOf (cfg : TrainConfig) (model : DecorNet) : List (Option Optimizer) :=
  mkOptimizers (fwdOptimizerOf cfg model) cfg.decorrelation_method
    model.get_decor_params cfg.decor_lr

/-- The evaluation pass the loop calls: update_metrics with the selected loss
function. -/
noncomputable def netEvalP {σ : Type} (cfg : TrainConfig) (or : TrainOracles σ) :
    σ → Phase → RVal × RVal :=
  or.evalPass (lossFuncOf cfg)

/-- The per-epoch training pass the loop calls: train(...) with the built
optimizer list and the selected loss function. -/
noncomputable def netTrainE {σ : Type} (cfg : TrainConfig) (or : TrainOracles σ)
    (model : DecorNet) : σ → ℕ → σ :=
  or.trainEpoch (optimizersOf cfg model) (lossFuncOf cfg)

/-- Embedding of train_network (run.py lines 14-146): resolve the dataset,
build the dataloaders, compute the input/output sizes, construct the model,
initialize the metrics, build the optimizers and the loss function, then run
the training loop. Configuration errors of the collaborators surface as
Except.error before any loop iteration. -/
noncomputable def trainNetwork {σ : Type} (cfg : TrainConfig) (or : TrainOracles σ) :
    Except ConfigError (Metrics RVal × σ × Bool) :=
  match construct_dataloaders (resolveDataset cfg.dataset) with
  | .error err => .error err
  | .ok _ =>
    match mkDecorNet (networkSizes (resolveDataset cfg.dataset)).1
        (networkSizes (resolveDataset cfg.dataset)).2 cfg.n_hidden_layers
        cfg.hidden_layer_size cfg.decorrelation_method cfg.bias with
    | .error err => .error err
    | .ok model =>
      .ok (trainLoop (netEvalP cfg or) (netTrainE cfg or model)
            cfg.nb_epochs (or.initState model) init_metric)

/-- The configuration surface of run() (run.py lines 149-184), where
decorrelation_method is still a string ("None" is the sentinel for None). -/
structure RunConfig where
  batch_size : ℤ := 256
  dataset : String := "MNIST"
  device : String := "cuda"
  bias : Bool := true
  decorrelation_method : String := "copi"
  decor_lr : ℚ := 1 / 1000
  n_hidden_layers : ℤ := 3
  hidden_layer_size : ℤ := 1000
  loss_func_type : String := "CCE"
  optimizer_type : String := "Adam"
  fwd_lr : ℚ := 1 / 100
  seed : ℤ := 42
  nb_epochs : ℕ := 10
  loud : Bool := true

/-- Embedding of run (run.py lines 149-184): the string "None" becomes None;
if the resulting decorrelation method is "foldiak" the process exits before
train_network is called (modelled as returning none); otherwise train_network
runs and its result is returned. -/
noncomputable def runMain {σ : Type} (cfg : RunConfig) (or : TrainOracles σ) :
    Option (Except ConfigError (Metrics RVal × σ × Bool)) :=
  let method : Option String :=
    if cfg.decorrelation_method = "None" then none else some cfg.decorrelation_method
  if method = some "foldiak" then none
  else
    some (trainNetwork
      { batch_size := cfg.batch_size, dataset := cfg.dataset, device := cfg.device,
        bias := cfg.bias, decorrelation_method := method, decor_lr := cfg.decor_lr,
        n_hidden_layers := cfg.n_hidden_layers, hidden_layer_size := cfg.hidden_layer_size,
        loss_func_type := cfg.loss_func_type, optimizer_type := cfg.optimizer_type,
        fwd_lr := cfg.fwd_lr, seed := cfg.seed, nb_epochs := cfg.nb_epochs,
        loud := cfg.loud } or)

end CorrGD

namespace CorrGD

theorem trainNetwork_ok {σ : Type} (cfg : TrainConfig) (or : TrainOracles σ) (model : DecorNet)
    (h1 : construct_dataloaders (resolveDataset cfg.dataset) = .ok ())
    (h2 : mkDecorNet (networkSizes (resolveDataset cfg.dataset)).1
        (networkSizes (resolveDataset cfg.dataset)).2 cfg.n_hidden_layers
        cfg.hidden_layer_size cfg.decorrelation_method cfg.bias = .ok model) :
    trainNetwork cfg or = .ok (trainLoop (netEvalP cfg or) (netTrainE cfg or model)
      cfg.nb_epochs (or.initState model) init_metric) := by
  unfold trainNetwork
  rw [h1, h2]

/-- Concrete probe run for the loop-level witnesses: the numeric state counts
the training epochs executed; the evaluation yields NaN exactly when one
training epoch has run, and a finite loss otherwise. -/
def probeEval : ℕ → Phase → RVal × RVal :=
  fun s _ => if s = 1 then (RVal.nan, RVal.fin 0) else (RVal.fin 1, RVal.fin 0)

/-- Concrete probe per-epoch training step: count one more trained epoch. -/
def probeStep : ℕ → ℕ → ℕ := fun s _ => s + 1

/-- C1 counterexample: a run whose recorded train-loss and test-loss are +inf
after the epoch-0 evaluation (non-finite, but not NaN) is not aborted: the
loop executes epoch 1 as well, records a second value for every sequence, one
training pass runs, and the NaN break never fires. -/
theorem infinite_loss_does_not_abort :
    RVal.isFinite RVal.posInf = false ∧
    trainLoop (fun (_ : ℕ) (_ : Phase) => (RVal.posInf, RVal.fin 0)) (fun s _ => s + 1) 1 0
        init_metric =
      (⟨[RVal.posInf, RVal.posInf], [RVal.fin 0, RVal.fin 0], [RVal.posInf, RVal.posInf],
        [RVal.fin 0, RVal.fin 0]⟩, 1, false) := by
  decide

/-- C1 (amended): if the first epoch whose evaluation records a NaN train-loss
or test-loss is epoch e (with e within the run), the loop aborts at that
epoch: the break fires and every metric sequence ends with exactly e + 1
entries, so no further epoch is executed. -/
theorem nan_loss_aborts_at_epoch {σ : Type} (evalP : σ → Phase → RVal × RVal)
    (trainE : σ → ℕ → σ) (nb e : ℕ) (s0 : σ) (he : e ≤ nb)
    (hpre : ∀ j, j < e → nanChk evalP (loopStateAt trainE nb s0 j) = false)
    (hnan : nanChk evalP (loopStateAt trainE nb s0 e) = true) :
    (trainLoop evalP trainE nb s0 init_metric).2.2 = true ∧
    (trainLoop evalP trainE nb s0 init_metric).1.trainLoss.length = e + 1 ∧
    (trainLoop evalP trainE nb s0 init_metric).1.trainAcc.length = e + 1 ∧
    (trainLoop evalP trainE nb s0 init_metric).1.testLoss.length = e + 1 ∧
    (trainLoop evalP trainE nb s0 init_metric).1.testAcc.length = e + 1 := by
  have h := trainLoopGo_abort evalP trainE nb e (nb + 1) 0 s0 init_metric (by omega) hpre hnan
  unfold trainLoop
  rw [h, init_appendM]
  have hl := cleanRun_lengths evalP (runState trainE nb) (e + 1) 0 s0
  exact ⟨rfl, hl.1, hl.2.1, hl.2.2.1, hl.2.2.2⟩

theorem nan_loss_aborts_at_epoch_witness :
    (1 ≤ 3 ∧ (∀ j, j < 1 → nanChk probeEval (loopStateAt probeStep 3 0 j) = false) ∧
      nanChk probeEval (loopStateAt probeStep 3 0 1) = true) ∧
    ((trainLoop probeEval probeStep 3 0 init_metric).2.2 = true ∧
     (trainLoop probeEval probeStep 3 0 init_metric).1.trainLoss.length = 1 + 1 ∧
     (trainLoop probeEval probeStep 3 0 init_metric).1.trainAcc.length = 1 + 1 ∧
     (trainLoop probeEval probeStep 3 0 init_metric).1.testLoss.length = 1 + 1 ∧
     (trainLoop probeEval probeStep 3 0 init_metric).1.testAcc.length = 1 + 1) :=
  ⟨⟨by decide, by decide, by decide⟩,
   nan_loss_aborts_at_epoch probeEval probeStep 3 1 0 (by decide) (by decide) (by decide)⟩

/-- C9: when the evaluation at epoch e (with e < nb_epochs) is the first to
record a NaN loss, the full training pass of epoch e still executes before
the loop detects the NaN and breaks: the final numeric state is one
training-epoch update, at epoch e, applied to the state the loop held when it
reached epoch e. -/
theorem training_runs_before_nan_break {σ : Type} (evalP : σ → Phase → RVal × RVal)
    (trainE : σ → ℕ → σ) (nb e : ℕ) (s0 : σ) (he : e < nb)
    (hpre : ∀ j, j < e → nanChk evalP (loopStateAt trainE nb s0 j) = false)
    (hnan : nanChk evalP (loopStateAt trainE nb s0 e) = true) :
    (trainLoop evalP trainE nb s0 init_metric).2.1 = trainE (loopStateAt trainE nb s0 e) e ∧
    (trainLoop evalP trainE nb s0 init_metric).2.2 = true := by
  have h := trainLoopGo_abort evalP trainE nb e (nb + 1) 0 s0 init_metric (by omega) hpre hnan
  unfold trainLoop
  rw [h]
  refine ⟨?_, rfl⟩
  rw [cleanRun_snd, iterState_succ_right]
  show runState trainE nb (iterState (runState trainE nb) 0 e s0) (0 + e) = _
  rw [Nat.zero_add]
  unfold runState
  rw [if_pos he]
  rfl

theorem training_runs_before_nan_break_witness :
    (1 < 3 ∧ (∀ j, j < 1 → nanChk probeEval (loopStateAt probeStep 3 0 j) = false) ∧
      nanChk probeEval (loopStateAt probeStep 3 0 1) = true) ∧
    ((trainLoop probeEval probeStep 3 0 init_metric).2.1 =
        probeStep (loopStateAt probeStep 3 0 1) 1 ∧
     (trainLoop probeEval probeStep 3 0 init_metric).2.2 = true) :=
  ⟨⟨by decide, by decide, by decide⟩,
   training_runs_before_nan_break probeEval probeStep 3 1 0 (by decide) (by decide) (by decide)⟩

end CorrGD

namespace CorrGD

/-- C2: for every run whose evaluations never record a NaN loss, the training
loop completes all nb_epochs + 1 iterations: the returned metrics are exactly
the abort-free record of one (train, test) evaluation per epoch — epoch 0
evaluated on the initial state before any training step — every per-phase
per-metric sequence has length nb_epochs + 1, and the NaN break never fires. -/
theorem clean_run_metric_lengths {σ : Type} (cfg : TrainConfig) (or : TrainOracles σ)
    (model : DecorNet)
    (h1 : construct_dataloaders (resolveDataset cfg.dataset) = .ok ())
    (h2 : mkDecorNet (networkSizes (resolveDataset cfg.dataset)).1
        (networkSizes (resolveDataset cfg.dataset)).2 cfg.n_hidden_layers
        cfg.hidden_layer_size cfg.decorrelation_method cfg.bias = .ok model)
    (hclean : ∀ k, k < cfg.nb_epochs + 1 →
      nanChk (netEvalP cfg or) (loopStateAt (netTrainE cfg or model) cfg.nb_epochs
        (or.initState model) k) = false) :
    trainNetwork cfg or = .ok
      ((cleanRun (netEvalP cfg or) (runState (netTrainE cfg or model) cfg.nb_epochs) 0
          (cfg.nb_epochs + 1) (or.initState model)).1,
       (cleanRun (netEvalP cfg or) (runState (netTrainE cfg or model) cfg.nb_epochs) 0
          (cfg.nb_epochs + 1) (or.initState model)).2, false) ∧
    (cleanRun (netEvalP cfg or) (runState (netTrainE cfg or model) cfg.nb_epochs) 0
        (cfg.nb_epochs + 1) (or.initState model)).1.trainLoss.length = cfg.nb_epochs + 1 ∧
    (cleanRun (netEvalP cfg or) (runState (netTrainE cfg or model) cfg.nb_epochs) 0
        (cfg.nb_epochs + 1) (or.initState model)).1.trainAcc.length = cfg.nb_epochs + 1 ∧
    (cleanRun (netEvalP cfg or) (runState (netTrainE cfg or model) cfg.nb_epochs) 0
        (cfg.nb_epochs + 1) (or.initState model)).1.testLoss.length = cfg.nb_epochs + 1 ∧
    (cleanRun (netEvalP cfg or) (runState (netTrainE cfg or model) cfg.nb_epochs) 0
        (cfg.nb_epochs + 1) (or.initState model)).1.testAcc.length = cfg.nb_epochs + 1 := by
  have hb := trainNetwork_ok cfg or model h1 h2
  have h := trainLoopGo_clean (netEvalP cfg or) (netTrainE cfg or model) cfg.nb_epochs
    (cfg.nb_epochs + 1) 0 (or.initState model) init_metric hclean
  have hl := cleanRun_lengths (netEvalP cfg or) (runState (netTrainE cfg or model) cfg.nb_epochs)
    (cfg.nb_epochs + 1) 0 (or.initState model)
  refine ⟨?_, hl.1, hl.2.1, hl.2.2.1, hl.2.2.2⟩
  rw [hb]
  unfold trainLoop
  rw [h, init_appendM]

/-- Concrete oracles for the trainNetwork-level witnesses: the numeric state
counts trained epochs, every evaluation yields loss 1 and accuracy 0. -/
def cOracles : TrainOracles ℕ :=
  { initState := fun _ => 0, evalPass := fun _ _ _ => (RVal.fin 1, RVal.fin 0),
    trainEpoch := fun _ _ s _ => s + 1 }

/-- The witness configuration: the source defaults with a two-epoch run. -/
def wCfg : TrainConfig := { nb_epochs := 1 }

/-- The network the witness configuration constructs. -/
def wModel : DecorNet := ⟨784, 10, 3, 1000, some "copi", true⟩

theorem clean_run_metric_lengths_witness :
    (construct_dataloaders (resolveDataset wCfg.dataset) = .ok () ∧
     mkDecorNet (networkSizes (resolveDataset wCfg.dataset)).1
        (networkSizes (resolveDataset wCfg.dataset)).2 wCfg.n_hidden_layers
        wCfg.hidden_layer_size wCfg.decorrelation_method wCfg.bias = .ok wModel ∧
     (∀ k, k < wCfg.nb_epochs + 1 →
       nanChk (netEvalP wCfg cOracles) (loopStateAt (netTrainE wCfg cOracles wModel)
         wCfg.nb_epochs (cOracles.initState wModel) k) = false)) ∧
    (trainNetwork wCfg cOracles = .ok
      ((cleanRun (netEvalP wCfg cOracles) (runState (netTrainE wCfg cOracles wModel) wCfg.nb_epochs) 0
          (wCfg.nb_epochs + 1) (cOracles.initState wModel)).1,
       (cleanRun (netEvalP wCfg cOracles) (runState (netTrainE wCfg cOracles wModel) wCfg.nb_epochs) 0
          (wCfg.nb_epochs + 1) (cOracles.initState wModel)).2, false) ∧
     (cleanRun (netEvalP wCfg cOracles) (runState (netTrainE wCfg cOracles wModel) wCfg.nb_epochs) 0
        (wCfg.nb_epochs + 1) (cOracles.initState wModel)).1.trainLoss.length = wCfg.nb_epochs + 1 ∧
     (cleanRun (netEvalP wCfg cOracles) (runState (netTrainE wCfg cOracles wModel) wCfg.nb_epochs) 0
        (wCfg.nb_epochs + 1) (cOracles.initState wModel)).1.trainAcc.length = wCfg.nb_epochs + 1 ∧
     (cleanRun (netEvalP wCfg cOracles) (runState (netTrainE wCfg cOracles wModel) wCfg.nb_epochs) 0
        (wCfg.nb_epochs + 1) (cOracles.initState wModel)).1.testLoss.length = wCfg.nb_epochs + 1 ∧
     (cleanRun (netEvalP wCfg cOracles) (runState (netTrainE wCfg cOracles wModel) wCfg.nb_epochs) 0
        (wCfg.nb_epochs + 1) (cOracles.initState wModel)).1.testAcc.length = wCfg.nb_epochs + 1) :=
  ⟨⟨rfl, rfl, by decide⟩, clean_run_metric_lengths wCfg cOracles wModel rfl rfl (by decide)⟩

/-- Oracles whose every evaluation records a NaN loss. -/
def nanOracles : TrainOracles Unit :=
  { initState := fun _ => (), evalPass := fun _ _ _ => (RVal.nan, RVal.fin 0),
    trainEpoch := fun _ _ s _ => s }

/-- C3 counterexample: a run with nb_epochs = 0 whose only evaluation (epoch 0,
the final epoch) records a NaN loss. The NaN break fires — the run is aborted —
yet every returned sequence has length 1 = nb_epochs + 1, not strictly less. -/
theorem abort_at_final_epoch_full_length :
    trainNetwork { nb_epochs := 0 } nanOracles =
      .ok (⟨[RVal.nan], [RVal.fin 0], [RVal.nan], [RVal.fin 0]⟩, (), true) ∧
    ¬ (([RVal.nan] : List RVal).length < 0 + 1) :=
  ⟨rfl, by decide⟩

/-- C3 (amended): for every run aborted by the NaN break, with the NaN first
recorded at epoch e, train_network returns the metrics collected so far: every
per-phase per-metric sequence has length e + 1, which is at most
nb_epochs + 1 — and strictly less than nb_epochs + 1 exactly when the abort
happens before the final epoch. -/
theorem abort_returns_partial_metrics {σ : Type} (cfg : TrainConfig) (or : TrainOracles σ)
    (model : DecorNet) (e : ℕ)
    (h1 : construct_dataloaders (resolveDataset cfg.dataset) = .ok ())
    (h2 : mkDecorNet (networkSizes (resolveDataset cfg.dataset)).1
        (networkSizes (resolveDataset cfg.dataset)).2 cfg.n_hidden_layers
        cfg.hidden_layer_size cfg.decorrelation_method cfg.bias = .ok model)
    (he : e ≤ cfg.nb_epochs)
    (hpre : ∀ j, j < e → nanChk (netEvalP cfg or) (loopStateAt (netTrainE cfg or model)
        cfg.nb_epochs (or.initState model) j) = false)
    (hnan : nanChk (netEvalP cfg or) (loopStateAt (netTrainE cfg or model)
        cfg.nb_epochs (or.initState model) e) = true) :
    ∃ M sF, trainNetwork cfg or = .ok (M, sF, true) ∧
      M.trainLoss.length = e + 1 ∧ M.trainAcc.length = e + 1 ∧
      M.testLoss.length = e + 1 ∧ M.testAcc.length = e + 1 ∧
      e + 1 ≤ cfg.nb_epochs + 1 ∧ (e < cfg.nb_epochs → e + 1 < cfg.nb_epochs + 1) := by
  have hb := trainNetwork_ok cfg or model h1 h2
  have h := trainLoopGo_abort (netEvalP cfg or) (netTrainE cfg or model) cfg.nb_epochs e
    (cfg.nb_epochs + 1) 0 (or.initState model) init_metric (by omega) hpre hnan
  have hl := cleanRun_lengths (netEvalP cfg or) (runState (netTrainE cfg or model) cfg.nb_epochs)
    (e + 1) 0 (or.initState model)
  refine ⟨(cleanRun (netEvalP cfg or) (runState (netTrainE cfg or model) cfg.nb_epochs) 0
            (e + 1) (or.initState model)).1,
          (cleanRun (netEvalP cfg or) (runState (netTrainE cfg or model) cfg.nb_epochs) 0
            (e + 1) (or.initState model)).2,
          ?_, hl.1, hl.2.1, hl.2.2.1, hl.2.2.2, by omega, by omega⟩
  rw [hb]
  unfold trainLoop
  rw [h, init_appendM]

/-- Oracles that record a NaN loss as soon as one training epoch has run. -/
def nanAfterOneOracles : TrainOracles ℕ :=
  { initState := fun _ => 0, evalPass := fun _ s _ => probeEval s Phase.train,
    trainEpoch := fun _ _ s _ => s + 1 }

theorem abort_returns_partial_metrics_witness :
    (construct_dataloaders (resolveDataset wCfg.dataset) = .ok () ∧
     mkDecorNet (networkSizes (resolveDataset wCfg.dataset)).1
        (networkSizes (resolveDataset wCfg.dataset)).2 wCfg.n_hidden_layers
        wCfg.hidden_layer_size wCfg.decorrelation_method wCfg.bias = .ok wModel ∧
     1 ≤ wCfg.nb_epochs ∧
     (∀ j, j < 1 → nanChk (netEvalP wCfg nanAfterOneOracles)
        (loopStateAt (netTrainE wCfg nanAfterOneOracles wModel) wCfg.nb_epochs
          (nanAfterOneOracles.initState wModel) j) = false) ∧
     nanChk (netEvalP wCfg nanAfterOneOracles)
        (loopStateAt (netTrainE wCfg nanAfterOneOracles wModel) wCfg.nb_epochs
          (nanAfterOneOracles.initState wModel) 1) = true) ∧
    (∃ M sF, trainNetwork wCfg nanAfterOneOracles = .ok (M, sF, true) ∧
      M.trainLoss.length = 1 + 1 ∧ M.trainAcc.length = 1 + 1 ∧
      M.testLoss.length = 1 + 1 ∧ M.testAcc.length = 1 + 1 ∧
      1 + 1 ≤ wCfg.nb_epochs + 1 ∧ (1 < wCfg.nb_epochs → 1 + 1 < wCfg.nb_epochs + 1)) :=
  ⟨⟨rfl, rfl, by decide, by decide, by decide⟩,
   abort_returns_partial_metrics wCfg nanAfterOneOracles wModel 1 rfl rfl (by decide)
     (by decide) (by decide)⟩

end CorrGD

namespace CorrGD

/-- Trivial oracles over the unit state, recording finite losses. -/
def unitOracles : TrainOracles Unit :=
  { initState := fun _ => (), evalPass := fun _ _ _ => (RVal.fin 0, RVal.fin 0),
    trainEpoch := fun _ _ s _ => s }

/-- C4: a run configured with the unsupported decorrelation method "foldiak"
terminates immediately: run() exits before train_network is invoked, so no
training starts and no metrics are produced. -/
theorem foldiak_terminates_before_training {σ : Type} (cfg : RunConfig) (or : TrainOracles σ)
    (h : cfg.decorrelation_method = "foldiak") : runMain cfg or = none := by
  unfold runMain
  rw [h]
  rfl

theorem foldiak_terminates_before_training_witness :
    ({ decorrelation_method := "foldiak" } : RunConfig).decorrelation_method = "foldiak" ∧
    runMain { decorrelation_method := "foldiak" } unitOracles = none :=
  ⟨rfl, foldiak_terminates_before_training { decorrelation_method := "foldiak" } unitOracles rfl⟩

/-- C5: configuration errors — an unknown dataset name, a negative hidden
layer count, or a non-positive hidden layer size — make train_network fail
with a configuration error before the training loop can run: the result is an
error and no metrics exist. -/
theorem config_errors_surface_before_training {σ : Type} (cfg : TrainConfig)
    (or : TrainOracles σ)
    (h : cfg.dataset ∉ (["MNIST", "CIFAR10", "CIFAR100", "TIN"] : List String) ∨
         cfg.n_hidden_layers < 0 ∨ cfg.hidden_layer_size ≤ 0) :
    ∃ err, trainNetwork cfg or = .error err := by
  by_cases hdl : ∃ err, construct_dataloaders (resolveDataset cfg.dataset) = .error err
  · obtain ⟨err, herr⟩ := hdl
    exact ⟨err, by unfold trainNetwork; rw [herr]⟩
  · have hok : construct_dataloaders (resolveDataset cfg.dataset) = .ok () := by
      cases hc : construct_dataloaders (resolveDataset cfg.dataset) with
      | error e => exact absurd ⟨e, hc⟩ hdl
      | ok u => cases u; rfl
    have hshape : cfg.n_hidden_layers < 0 ∨ cfg.hidden_layer_size ≤ 0 := by
      rcases h with h | h | h
      · exfalso
        apply h
        by_cases h1 : cfg.dataset = "MNIST"
        · simp [h1]
        by_cases h2 : cfg.dataset = "CIFAR10"
        · simp [h2]
        by_cases h3 : cfg.dataset = "CIFAR100"
        · simp [h3]
        have hres : resolveDataset cfg.dataset = .str cfg.dataset := by
          simp [resolveDataset, h1, h2, h3]
        rw [hres] at hok
        by_cases h4 : cfg.dataset = "TIN"
        · simp [h4]
        · simp [construct_dataloaders, h4] at hok
      · exact Or.inl h
      · exact Or.inr h
    refine ⟨.invalidNetworkShape, ?_⟩
    unfold trainNetwork
    rw [hok]
    have hmk : mkDecorNet (networkSizes (resolveDataset cfg.dataset)).1
        (networkSizes (resolveDataset cfg.dataset)).2 cfg.n_hidden_layers
        cfg.hidden_layer_size cfg.decorrelation_method cfg.bias =
        .error .invalidNetworkShape := by
      unfold mkDecorNet
      rcases hshape with h | h
      · rw [if_pos (Or.inl h)]
      · rw [if_pos (Or.inr (Or.inr (Or.inr h)))]
    rw [hmk]

theorem config_errors_surface_before_training_witness :
    (("FOO" : String) ∉ (["MNIST", "CIFAR10", "CIFAR100", "TIN"] : List String) ∨
      ({ dataset := "FOO" } : TrainConfig).n_hidden_layers < 0 ∨
      ({ dataset := "FOO" } : TrainConfig).hidden_layer_size ≤ 0) ∧
    (∃ err, trainNetwork { dataset := "FOO" } unitOracles = .error err) :=
  ⟨by decide, config_errors_surface_before_training { dataset := "FOO" } unitOracles (by decide)⟩

/-- C6: with decorrelation disabled (decorrelation_method = None), no
decorrelation optimizer is created — the optimizer list the per-batch step
iterates is exactly [fwd_optimizer] — and the decorrelation parameter
partition is empty, so only the forward optimizer can ever step. -/
theorem no_decor_optimizer_when_disabled (fwd : Option Optimizer) (decor_params : List Param)
    (decor_lr : ℚ) (net : DecorNet) (h : net.decorrelation_method = none) :
    mkOptimizers fwd net.decorrelation_method decor_params decor_lr = [fwd] ∧
    net.get_decor_params = [] := by
  constructor
  · rw [h]
    simp [mkOptimizers]
  · simp [DecorNet.get_decor_params, h]

theorem no_decor_optimizer_when_disabled_witness :
    (⟨784, 10, 3, 1000, none, true⟩ : DecorNet).decorrelation_method = none ∧
    (mkOptimizers none (⟨784, 10, 3, 1000, none, true⟩ : DecorNet).decorrelation_method []
        (1 / 1000) = [none] ∧
      (⟨784, 10, 3, 1000, none, true⟩ : DecorNet).get_decor_params = []) :=
  ⟨rfl, no_decor_optimizer_when_disabled none [] (1 / 1000) ⟨784, 10, 3, 1000, none, true⟩ rfl⟩

/-- C7: the loss strategy is fixed by loss_func_type at construction: "CCE"
selects the cross-entropy lambda and "MSE" the sum-of-squared-error lambda;
the CCE strategy is categorical cross-entropy of the raw integer labels and
ignores the one-hot encoding entirely; the MSE strategy is the squared error
against the one-hot targets summed (not averaged) across output classes per
sample, exactly the spec-side definition. -/
theorem loss_strategy_selection :
    mkLossFunc "CCE" = some cce_loss_func ∧
    mkLossFunc "MSE" = some mse_loss_func ∧
    (∀ (input : List (List ℝ)) (target : List ℕ) (onehot onehot' : List (List ℝ)),
      cce_loss_func input target onehot = cce_loss_func input target onehot') ∧
    (∀ (input : List (List ℝ)) (target : List ℕ) (onehot : List (List ℝ)),
      cce_loss_func input target onehot = List.zipWith crossEntropy input target) ∧
    (∀ (input : List (List ℝ)) (target : List ℕ) (onehot : List (List ℝ)),
      mse_loss_func input target onehot =
        (input.zip onehot).map (fun p => spec_sse_per_sample p.1 p.2)) :=
  ⟨rfl, rfl, fun _ _ _ _ => rfl, fun _ _ _ => rfl, fun _ _ _ => rfl⟩

/-- C8: the dataset name fixes the network dimensions as the configuration
table states: MNIST gives 28*28 inputs and 10 classes, CIFAR10 gives 32*32*3
and 10, CIFAR100 gives 32*32*3 and 100, TIN gives 64*64*3 and 200. -/
theorem dataset_dimensions :
    networkSizes (resolveDataset "MNIST") = (28 * 28, 10) ∧
    networkSizes (resolveDataset "CIFAR10") = (32 * 32 * 3, 10) ∧
    networkSizes (resolveDataset "CIFAR100") = (32 * 32 * 3, 100) ∧
    networkSizes (resolveDataset "TIN") = (64 * 64 * 3, 200) :=
  ⟨rfl, rfl, rfl, rfl⟩

/-- C10: for every optimizer_type and loss_func_type, train_network raises no
eager configuration error — it always reaches the training loop — and each
unrecognized option independently leaves its value None: if optimizer_type is
outside Adam/SGD the forward optimizer stays None and the optimizer list
handed to the loop is [None] plus the decorrelation optimizer (whatever
loss_func_type is), and if loss_func_type is outside CCE/MSE the loss
function stays None (whatever optimizer_type is). -/
theorem unknown_optimizer_loss_silently_none {σ : Type} (or : TrainOracles σ)
    (ot lt : String) (fwd_params : List Param) (fwd_lr : ℚ) (nb : ℕ) (model : DecorNet) :
    (trainNetwork { optimizer_type := ot, loss_func_type := lt, nb_epochs := nb } or).isOk
      = true ∧
    (ot ≠ "Adam" → ot ≠ "SGD" →
      mkFwdOptimizer ot fwd_params theBetas theEps fwd_lr = none ∧
      optimizersOf { optimizer_type := ot, loss_func_type := lt, nb_epochs := nb } model =
        [none, some (.sgd model.get_decor_params (1 / 1000))]) ∧
    (lt ≠ "CCE" → lt ≠ "MSE" → mkLossFunc lt = none) := by
  refine ⟨?_, ?_, ?_⟩
  · rw [trainNetwork_ok { optimizer_type := ot, loss_func_type := lt, nb_epochs := nb } or
        ⟨784, 10, 3, 1000, some "copi", true⟩ rfl rfl]
    rfl
  · intro h1 h2
    have hf : ∀ (p : List Param) (lr : ℚ), mkFwdOptimizer ot p theBetas theEps lr = none := by
      intro p lr
      simp [mkFwdOptimizer, h1, h2]
    exact ⟨hf _ _, by simp [optimizersOf, fwdOptimizerOf, hf, mkOptimizers]⟩
  · intro h3 h4
    simp [mkLossFunc, h3, h4]

theorem unknown_optimizer_loss_silently_none_witness :
    (("RMSProp" : String) ≠ "Adam" ∧ ("RMSProp" : String) ≠ "SGD" ∧
      ("NLL" : String) ≠ "CCE" ∧ ("NLL" : String) ≠ "MSE") ∧
    ((trainNetwork { optimizer_type := "RMSProp", loss_func_type := "CCE", nb_epochs := 0 }
        unitOracles).isOk = true ∧
     mkFwdOptimizer "RMSProp" [] theBetas theEps 1 = none ∧
     optimizersOf { optimizer_type := "RMSProp", loss_func_type := "CCE", nb_epochs := 0 }
        wModel = [none, some (.sgd wModel.get_decor_params (1 / 1000))] ∧
     (trainNetwork { optimizer_type := "Adam", loss_func_type := "NLL", nb_epochs := 0 }
        unitOracles).isOk = true ∧
     mkLossFunc "NLL" = none) :=
  ⟨⟨by decide, by decide, by decide, by decide⟩,
   (unknown_optimizer_loss_silently_none unitOracles "RMSProp" "CCE" [] 1 0 wModel).1,
   ((unknown_optimizer_loss_silently_none unitOracles "RMSProp" "CCE" [] 1 0 wModel).2.1
      (by decide) (by decide)).1,
   ((unknown_optimizer_loss_silently_none unitOracles "RMSProp" "CCE" [] 1 0 wModel).2.1
      (by decide) (by decide)).2,
   (unknown_optimizer_loss_silently_none unitOracles "Adam" "NLL" [] 1 0 wModel).1,
   (unknown_optimizer_loss_silently_none unitOracles "Adam" "NLL" [] 1 0 wModel).2.2
      (by decide) (by decide)⟩

end CorrGD
